import Mathlib

/-!
Shallow embedding of the F1 race-intelligence pipeline's status classifier
and cleaning helpers (src/data/constants.py and src/data/clean_data.py),
together with theorems settling the specification claims about them.

Conventions of the embedding:
* Python `str` values are Lean `String`s; `str.lower` maps `Char.toLower`
  over the characters (all vocabulary entries are ASCII).
* Python's substring test `needle in hay` is infix containment on the
  character lists; `str.startswith` is list-prefix containment.
* Python `None` / pandas missing values are `Option.none`; numeric cell
  values are rationals (real-number semantics for the float arithmetic).
* Objects of unknown runtime type (the `isinstance(status, str)` guards)
  are modelled by the `PyObj` sum type.
-/

namespace F1

/-- Python `str.lower()` restricted to the ASCII subset used by the data:
maps `Char.toLower` over the characters. -/
def pyLower (s : String) : String := ⟨s.data.map Char.toLower⟩

/-- Substring search on character lists: does `needle` occur as a contiguous
run inside the second list? -/
def containsSub (needle : List Char) : List Char → Bool
  | [] => needle.isEmpty
  | c :: rest => needle.isPrefixOf (c :: rest) || containsSub needle rest

/-- Python's substring containment `needle in hay`. -/
def pyContains (hay needle : String) : Bool := containsSub needle.data hay.data

/-- Python's `hay.startswith(p)`. -/
def pyStartsWith (hay p : String) : Bool := p.data.isPrefixOf hay.data

/-- Drop whitespace from both ends of a character list. -/
def stripList (cs : List Char) : List Char :=
  ((cs.dropWhile Char.isWhitespace).reverse.dropWhile Char.isWhitespace).reverse

/-- Python's `str.strip()`: drop whitespace from both ends. -/
def pyStrip (s : String) : String := ⟨stripList s.data⟩

/-- A Python runtime value as far as the classifiers inspect it: a string,
`None`, or some non-string object (bool / int stand in for the rest). -/
inductive PyObj where
  | pyStr : String → PyObj
  | pyNone : PyObj
  | pyBool : Bool → PyObj
  | pyInt : Int → PyObj
deriving DecidableEq

-- ---------------------------------------------------------------------------
-- src/data/constants.py — numeric thresholds
-- ---------------------------------------------------------------------------

def LAP_TIME_MIN_MS : ℚ := 30000
def LAP_TIME_WARN_MS : ℚ := 300000
def LAP_TIME_CORRUPT_MS : ℚ := 600000
def LAP_TIME_MAX_MS : ℚ := LAP_TIME_CORRUPT_MS
def PIT_STOP_MIN_MS : ℚ := 15000
def PIT_STOP_MAX_MS : ℚ := 300000

-- ---------------------------------------------------------------------------
-- src/data/constants.py — vocabularies
-- ---------------------------------------------------------------------------

/-- positionText DNF codes (frozenset in the source). -/
def POSITION_TEXT_DNF_CODES : List String := ["R", "D", "E", "W", "F", "N"]

/-- DNF keyword vocabulary, copied in source order. -/
def DNF_KEYWORDS : List String := [
  "engine", "gearbox", "transmission", "clutch", "turbo", "compressor",
  "supercharger", "throttle", "injection", "ignition", "magneto",
  "spark plugs", "distributor", "launch control", "power unit", "ers",
  "exhaust", "alternator", "battery", "electronics", "electrical",
  "vibrations", "pneumatic",
  "oil",
  "fuel",
  "hydraulics", "cooling", "overheating", "radiator",
  "water",
  "heat shield",
  "suspension", "steering", "handling", "brakes",
  "driveshaft", "differential", "drivetrain", "halfshaft", "axle",
  "cv joint", "track rod",
  "tyre",
  "wheel",
  "chassis", "broken wing", "front wing", "rear wing", "undertray",
  "brake duct", "crankshaft",
  "mechanical", "power loss", "fire",
  "technical",
  "cooling system",
  "accident",
  "collision",
  "spun off",
  "damage",
  "puncture",
  "retired", "withdrew", "illness", "injury",
  "physical", "unwell",
  "eye injury",
  "safety belt",
  "safety concerns",
  "refuelling",
  "fuel rig",
  "disqualified", "did not", "excluded",
  "debris", "safety"]

/-- Mechanical DNF sub-classifier vocabulary, copied in source order
(the duplicate "exhaust" entry is in the source too). -/
def MECHANICAL_KEYWORDS : List String := [
  "engine",
  "gearbox", "transmission", "clutch", "turbo", "compressor",
  "supercharger", "throttle", "injection", "ignition", "magneto",
  "spark plugs", "distributor", "launch control", "power unit", "ers",
  "exhaust", "vibrations",
  "oil",
  "fuel",
  "hydraulics", "cooling", "overheating", "radiator",
  "water",
  "heat shield",
  "cooling system",
  "electrical", "alternator", "electronics", "battery",
  "suspension", "steering", "handling", "brakes",
  "driveshaft", "differential", "drivetrain", "halfshaft", "axle",
  "cv joint", "track rod",
  "tyre",
  "wheel",
  "exhaust", "pneumatic",
  "chassis", "broken wing", "front wing", "rear wing", "undertray",
  "brake duct", "crankshaft",
  "mechanical", "power loss",
  "fire",
  "technical",
  "safety belt",
  "refuelling",
  "fuel rig"]

/-- Crash DNF sub-classifier vocabulary. -/
def CRASH_KEYWORDS : List String := [
  "accident",
  "collision",
  "spun off",
  "damage",
  "puncture",
  "eye injury",
  "fatal"]

/-- Classified finisher keyword. -/
def FINISH_KEYWORDS : List String := ["finished"]

/-- Lapped finisher patterns. -/
def LAPPED_PATTERNS : List String := [
  "+1 lap", "+2 lap", "+3 lap", "+4 lap", "+5 lap",
  "+6 lap", "+7 lap", "+8 lap", "+9 lap",
  "lapped", "lap down"]

-- ---------------------------------------------------------------------------
-- src/data/constants.py — classification functions
-- ---------------------------------------------------------------------------

/-- `is_dnf(status)`: True if the status label represents a DNF of any kind;
non-strings are rejected by the `isinstance` guard. -/
def is_dnf (status : PyObj) : Bool :=
  match status with
  | .pyStr s =>
      let ll := pyLower s
      if pyStartsWith ll "+" && pyContains ll "lap" then false
      else DNF_KEYWORDS.any (fun kw => pyContains ll kw)
  | _ => false

/-- `is_finish(status)`: True if the driver was a classified finisher
(literal "finished", or a lapped finisher). -/
def is_finish (status : PyObj) : Bool :=
  match status with
  | .pyStr s =>
      let ll := pyLower s
      if FINISH_KEYWORDS.any (fun kw => pyContains ll kw) then true
      else if pyStartsWith ll "+" && pyContains ll "lap" then true
      else if LAPPED_PATTERNS.any (fun pat => pyContains ll pat) then true
      else false
  | _ => false

/-- `classify_dnf_type(status)`: mechanical / crash / other sub-category for
DNF entries, `none` for non-strings and non-DNFs. -/
def classify_dnf_type (status : PyObj) : Option String :=
  match status with
  | .pyStr s =>
      if is_dnf (.pyStr s) then
        let ll := pyLower s
        if MECHANICAL_KEYWORDS.any (fun kw => pyContains ll kw) then some "mechanical"
        else if CRASH_KEYWORDS.any (fun kw => pyContains ll kw) then some "crash"
        else some "other"
      else none
  | _ => none

/-- `compute_is_dnf_series`: vectorised `is_dnf` over a series of labels
(`pd.notna` is `Option.isSome`; `str(s)` is the identity on string cells,
null cells map to 0). -/
def compute_is_dnf_series (status_series : List (Option String)) : List Int :=
  status_series.map fun s =>
    match s with
    | some v => if is_dnf (.pyStr v) then 1 else 0
    | none => 0

/-- `compute_dnf_type_series`: vectorised `classify_dnf_type` over a series
of labels, null cells mapping to `none`. -/
def compute_dnf_type_series (status_series : List (Option String)) :
    List (Option String) :=
  status_series.map fun s =>
    match s with
    | some v => classify_dnf_type (.pyStr v)
    | none => none

-- ---------------------------------------------------------------------------
-- src/data/clean_data.py — parsing and cleaning helpers
-- ---------------------------------------------------------------------------

/-- Numeric value of a decimal digit character (`int` applied to it). -/
def digitVal (c : Char) : Nat := c.toNat - 48

/-- The regex `LAP_TIME_PATTERN = ^(\d{1,2}):(\d{2})\.(\d{3})$` as a total
match function on the character list, returning the three captured groups as
numbers: one or two minute digits, a colon, two second digits, a dot, three
millisecond digits, end of string. -/
def lap_time_match (cs : List Char) : Option (Nat × Nat × Nat) :=
  match cs with
  | [m1, c1, s1, s2, c2, f1, f2, f3] =>
      if c1 = ':' ∧ c2 = '.' ∧ m1.isDigit ∧ s1.isDigit ∧ s2.isDigit ∧
          f1.isDigit ∧ f2.isDigit ∧ f3.isDigit then
        some (digitVal m1, 10 * digitVal s1 + digitVal s2,
              100 * digitVal f1 + 10 * digitVal f2 + digitVal f3)
      else none
  | [ma, mb, c1, s1, s2, c2, f1, f2, f3] =>
      if c1 = ':' ∧ c2 = '.' ∧ ma.isDigit ∧ mb.isDigit ∧ s1.isDigit ∧
          s2.isDigit ∧ f1.isDigit ∧ f2.isDigit ∧ f3.isDigit then
        some (10 * digitVal ma + digitVal mb, 10 * digitVal s1 + digitVal s2,
              100 * digitVal f1 + 10 * digitVal f2 + digitVal f3)
      else none
  | _ => none

/-- `lap_time_to_ms`: convert a lap time string "M:SS.mmm" to milliseconds;
`np.nan` results and `pd.isna` inputs are `none`. The textual input is
modelled as an optional string. -/
def lap_time_to_ms (time_str : Option String) : Option ℚ :=
  match time_str with
  | none => none
  | some s =>
      match lap_time_match (pyStrip s).data with
      | none => none
      | some (m, sec, ms) => some (((m * 60000 + sec * 1000 + ms : ℕ) : ℚ))

/-- Natural number denoted by a digit list (most significant first); digits
are assumed checked by the caller. -/
def natFromDigits (cs : List Char) : Nat :=
  cs.foldl (fun a c => 10 * a + digitVal c) 0

/-- Nonempty all-digit strings parse to their value, anything else fails. -/
def natOfDigits (cs : List Char) : Option Nat :=
  if cs ≠ [] ∧ cs.all Char.isDigit then some (natFromDigits cs) else none

/-- Mantissa of Python's `float` grammar: `digits`, `digits.digits`,
`digits.` or `.digits`, valued as integer part plus fraction. -/
def parseMantissa (cs : List Char) : Option ℚ :=
  let ip := cs.takeWhile (fun c => c ≠ '.')
  match cs.dropWhile (fun c => c ≠ '.') with
  | [] => (natOfDigits ip).map (fun n => (n : ℚ))
  | _ :: frac =>
      if ip.all Char.isDigit ∧ frac.all Char.isDigit ∧ (ip ≠ [] ∨ frac ≠ []) then
        some ((natFromDigits ip : ℚ) + (natFromDigits frac : ℚ) / ((10 : ℚ) ^ frac.length))
      else none

/-- Exponent part of Python's `float` grammar: optional sign, then digits. -/
def parseExp (cs : List Char) : Option Int :=
  match cs with
  | '+' :: rest => (natOfDigits rest).map Int.ofNat
  | '-' :: rest => (natOfDigits rest).map (fun n => -(n : Int))
  | rest => (natOfDigits rest).map Int.ofNat

/-- Unsigned body of Python's `float` grammar: mantissa with an optional
`e`/`E` exponent. -/
def parseFloatBody (cs : List Char) : Option ℚ :=
  let mant := cs.takeWhile (fun c => c ≠ 'e' ∧ c ≠ 'E')
  match cs.dropWhile (fun c => c ≠ 'e' ∧ c ≠ 'E') with
  | [] => parseMantissa mant
  | _ :: ex =>
      match parseMantissa mant, parseExp ex with
      | some m, some e => some (m * (10 : ℚ) ^ e)
      | _, _ => none

/-- Modelled from Python's builtin `float(...)` on decimal notation (with
real-number instead of binary floating-point semantics): optional sign and
surrounding whitespace, decimal mantissa, optional exponent. The special
spellings `inf` / `nan` and underscore digit separators are outside the
model. -/
def pyFloat (s : String) : Option ℚ :=
  match (pyStrip s).data with
  | [] => none
  | c :: rest =>
      if c = '+' then parseFloatBody rest
      else if c = '-' then (parseFloatBody rest).map Neg.neg
      else parseFloatBody (c :: rest)

/-- `_parse_duration` from `clean_pit_stops`: "M:SS.mmm" strings go through
`lap_time_to_ms`, other strings through `float(val) * 1000`, anything
unparseable or null becomes `none`. -/
def parse_duration (val : Option String) : Option ℚ :=
  match val with
  | none => none
  | some s =>
      let v := pyStrip s
      if v.data.any (fun c => c = ':') then lap_time_to_ms (some v)
      else
        match pyFloat v with
        | some q => some (q * 1000)
        | none => none

/-- `null_out_outliers`: set the non-null values of a column that fall
outside `[min_val, max_val]` to null, elementwise over the column. -/
def null_out_outliers (col : List (Option ℚ)) (min_val max_val : ℚ) :
    List (Option ℚ) :=
  col.map fun x =>
    match x with
    | some v => if v < min_val ∨ v > max_val then none else some v
    | none => none

-- ---------------------------------------------------------------------------
-- src/data/clean_data.py — clean_results, restricted to the columns the
-- claims are about (grid / grid_pit_lane / points / position / positionText /
-- fastestLapTime); the upstream numeric coercions are reflected in the typed
-- fields of the raw row.
-- ---------------------------------------------------------------------------

/-- A raw results row after null normalisation and numeric coercion. -/
structure RawResultRow where
  grid : Option Int
  position : Option Int
  positionText : Option String
  points : Option ℚ
  fastestLapTime : Option String
deriving DecidableEq

/-- A cleaned results row as produced by `clean_results`. -/
structure CleanResultRow where
  grid : Option Int
  grid_pit_lane : Int
  position : Option Int
  positionText : Option String
  points : Option ℚ
  fastestLapTime_ms : Option ℚ
  is_dnf : Int
  is_podium : Int
deriving DecidableEq

/-- One row of `clean_results`: null the grid-0 sentinel, initialise the
pit-lane flag to 0, parse the fastest lap and null out-of-range values,
derive the interim is_dnf flag from positionText, derive is_podium, and
clamp negative points to 0. -/
def clean_results_row (r : RawResultRow) : CleanResultRow :=
    { grid := if r.grid = some (0 : Int) then none else r.grid
      grid_pit_lane := 0
      position := r.position
      positionText := r.positionText
      points :=
        match r.points with
        | some p => if p < 0 then some 0 else some p
        | none => none
      fastestLapTime_ms :=
        match lap_time_to_ms r.fastestLapTime with
        | some v => if v < LAP_TIME_MIN_MS ∨ v > LAP_TIME_MAX_MS then none else some v
        | none => none
      is_dnf :=
        match r.positionText with
        | some t => if POSITION_TEXT_DNF_CODES.contains t then 1 else 0
        | none => 0
      is_podium :=
        match r.position with
        | some p => if p ≤ 3 then 1 else 0
        | none => 0 }

/-- `clean_results` applied across the whole table. -/
def clean_results (rows : List RawResultRow) : List CleanResultRow :=
  rows.map clean_results_row

-- ---------------------------------------------------------------------------
-- Boolean unfolding lemmas for the classifiers
-- ---------------------------------------------------------------------------

theorem is_dnf_eq (s : String) :
    is_dnf (PyObj.pyStr s) =
      (!(pyStartsWith (pyLower s) "+" && pyContains (pyLower s) "lap") &&
        DNF_KEYWORDS.any (fun kw => pyContains (pyLower s) kw)) := by
  simp only [is_dnf]
  cases hp : pyStartsWith (pyLower s) "+" && pyContains (pyLower s) "lap" <;> simp

theorem is_finish_eq (s : String) :
    is_finish (PyObj.pyStr s) =
      (FINISH_KEYWORDS.any (fun kw => pyContains (pyLower s) kw) ||
       (pyStartsWith (pyLower s) "+" && pyContains (pyLower s) "lap") ||
       LAPPED_PATTERNS.any (fun pat => pyContains (pyLower s) pat)) := by
  simp only [is_finish]
  cases h1 : FINISH_KEYWORDS.any (fun kw => pyContains (pyLower s) kw) <;>
    cases h2 : pyStartsWith (pyLower s) "+" && pyContains (pyLower s) "lap" <;>
      cases h3 : LAPPED_PATTERNS.any (fun pat => pyContains (pyLower s) pat) <;>
        simp

-- ---------------------------------------------------------------------------
-- Support lemmas for the time / duration parsers
-- ---------------------------------------------------------------------------

/-- The decimal digit character of a value below ten. -/
def digitChar (d : ℕ) : Char := Char.ofNat (48 + d)

/-- "M:SS.mmm" rendering of a lap time: one or two minute digits, two second
digits, three millisecond digits. -/
def renderLapTime (m sec ms : ℕ) : String :=
  ⟨(if m < 10 then [digitChar m] else [digitChar (m / 10), digitChar (m % 10)]) ++
    ':' :: digitChar (sec / 10) :: digitChar (sec % 10) ::
    '.' :: digitChar (ms / 100) :: digitChar (ms / 10 % 10) :: [digitChar (ms % 10)]⟩

/-- "SS.mmm" rendering of a short duration in seconds. -/
def renderSeconds (sec ms : ℕ) : String :=
  ⟨digitChar (sec / 10) :: digitChar (sec % 10) ::
    '.' :: digitChar (ms / 100) :: digitChar (ms / 10 % 10) :: [digitChar (ms % 10)]⟩

theorem digitChar_facts (d : ℕ) (h : d < 10) :
    (digitChar d).isDigit = true ∧ (digitChar d).isWhitespace = false ∧
    digitChar d ≠ ':' ∧ digitChar d ≠ '.' ∧ digitChar d ≠ 'e' ∧
    digitChar d ≠ 'E' ∧ digitChar d ≠ '+' ∧ digitChar d ≠ '-' := by
  interval_cases d <;> exact (by decide)

theorem dropWhile_head_false {p : Char → Bool} {l : List Char} :
    ∀ c, (l.dropWhile p).head? = some c → p c = false := by
  induction l with
  | nil => intro c hc; cases hc
  | cons a t ih =>
      intro c hc
      rw [List.dropWhile_cons] at hc
      by_cases hpa : p a = true
      · rw [if_pos hpa] at hc
        exact ih c hc
      · rw [if_neg hpa] at hc
        obtain rfl : a = c := by simpa using hc
        simpa using hpa

theorem dropWhile_eq_self_of_head {p : Char → Bool} {l : List Char}
    (h : ∀ c, l.head? = some c → p c = false) : l.dropWhile p = l := by
  cases l with
  | nil => rfl
  | cons a t =>
      rw [List.dropWhile_cons, if_neg]
      simp [h a rfl]

theorem getLast?_dropWhile {p : Char → Bool} {l : List Char} :
    ∀ c, (l.dropWhile p).getLast? = some c → l.getLast? = some c := by
  induction l with
  | nil => intro c hc; cases hc
  | cons a t ih =>
      intro c hc
      rw [List.dropWhile_cons] at hc
      by_cases hpa : p a = true
      · rw [if_pos hpa] at hc
        have ht := ih c hc
        cases t with
        | nil => cases ht
        | cons b u => simpa [List.getLast?_cons_cons] using ht
      · rwa [if_neg hpa] at hc

theorem stripList_eq_self {l : List Char}
    (h1 : ∀ c, l.head? = some c → c.isWhitespace = false)
    (h2 : ∀ c, l.getLast? = some c → c.isWhitespace = false) :
    stripList l = l := by
  unfold stripList
  rw [dropWhile_eq_self_of_head h1]
  rw [dropWhile_eq_self_of_head (by simpa using h2), List.reverse_reverse]

theorem stripList_head_not_ws {l : List Char} :
    ∀ c, (stripList l).head? = some c → c.isWhitespace = false := by
  intro c hc
  unfold stripList at hc
  rw [List.head?_reverse] at hc
  have := getLast?_dropWhile c hc
  rw [List.getLast?_reverse] at this
  exact dropWhile_head_false c this

theorem stripList_getLast_not_ws {l : List Char} :
    ∀ c, (stripList l).getLast? = some c → c.isWhitespace = false := by
  intro c hc
  unfold stripList at hc
  rw [List.getLast?_reverse] at hc
  exact dropWhile_head_false c hc

theorem stripList_idem (l : List Char) : stripList (stripList l) = stripList l :=
  stripList_eq_self stripList_head_not_ws stripList_getLast_not_ws

theorem pyStrip_idem (s : String) : pyStrip (pyStrip s) = pyStrip s :=
  congrArg String.mk (stripList_idem s.data)

theorem digitVal_digitChar (d : ℕ) (h : d < 10) : digitVal (digitChar d) = d := by
  interval_cases d <;> rfl

/-- A rendered "M:SS.mmm" lap time parses back to its millisecond count. -/
theorem lap_time_to_ms_render (m sec ms : ℕ) (hm : m < 100) (hs : sec < 100)
    (hms : ms < 1000) :
    lap_time_to_ms (some (renderLapTime m sec ms)) =
      some (((m * 60000 + sec * 1000 + ms : ℕ) : ℚ)) := by
  have f2 := digitChar_facts (sec / 10) (by omega)
  have f3 := digitChar_facts (sec % 10) (by omega)
  have f4 := digitChar_facts (ms / 100) (by omega)
  have f5 := digitChar_facts (ms / 10 % 10) (by omega)
  have f6 := digitChar_facts (ms % 10) (by omega)
  have d2 := digitVal_digitChar (sec / 10) (by omega)
  have d3 := digitVal_digitChar (sec % 10) (by omega)
  have d4 := digitVal_digitChar (ms / 100) (by omega)
  have d5 := digitVal_digitChar (ms / 10 % 10) (by omega)
  have d6 := digitVal_digitChar (ms % 10) (by omega)
  have esec : 10 * (sec / 10) + sec % 10 = sec := by omega
  have ems : 100 * (ms / 100) + 10 * (ms / 10 % 10) + ms % 10 = ms := by omega
  by_cases hm10 : m < 10
  · have f1 := digitChar_facts m hm10
    have d1 := digitVal_digitChar m hm10
    have hdata : (renderLapTime m sec ms).data =
        [digitChar m, ':', digitChar (sec / 10), digitChar (sec % 10), '.',
         digitChar (ms / 100), digitChar (ms / 10 % 10), digitChar (ms % 10)] := by
      simp [renderLapTime, hm10]
    have hstrip : (pyStrip (renderLapTime m sec ms)).data =
        (renderLapTime m sec ms).data := by
      show stripList _ = _
      apply stripList_eq_self
      · rw [hdata]
        intro c hc
        obtain rfl : digitChar m = c := by simpa using hc
        exact f1.2.1
      · rw [hdata]
        intro c hc
        obtain rfl : digitChar (ms % 10) = c := by simpa using hc
        exact f6.2.1
    simp only [lap_time_to_ms, hstrip, hdata, lap_time_match]
    rw [if_pos (by simp [f1.1, f2.1, f3.1, f4.1, f5.1, f6.1])]
    simp only [d1, d2, d3, d4, d5, d6, esec, ems]
  · have f1a := digitChar_facts (m / 10) (by omega)
    have f1b := digitChar_facts (m % 10) (by omega)
    have d1a := digitVal_digitChar (m / 10) (by omega)
    have d1b := digitVal_digitChar (m % 10) (by omega)
    have em : 10 * (m / 10) + m % 10 = m := by omega
    have hdata : (renderLapTime m sec ms).data =
        [digitChar (m / 10), digitChar (m % 10), ':', digitChar (sec / 10),
         digitChar (sec % 10), '.', digitChar (ms / 100), digitChar (ms / 10 % 10),
         digitChar (ms % 10)] := by
      simp [renderLapTime, hm10]
    have hstrip : (pyStrip (renderLapTime m sec ms)).data =
        (renderLapTime m sec ms).data := by
      show stripList _ = _
      apply stripList_eq_self
      · rw [hdata]
        intro c hc
        obtain rfl : digitChar (m / 10) = c := by simpa using hc
        exact f1a.2.1
      · rw [hdata]
        intro c hc
        obtain rfl : digitChar (ms % 10) = c := by simpa using hc
        exact f6.2.1
    simp only [lap_time_to_ms, hstrip, hdata, lap_time_match]
    rw [if_pos (by simp [f1a.1, f1b.1, f2.1, f3.1, f4.1, f5.1, f6.1])]
    simp only [d1a, d1b, d2, d3, d4, d5, d6, esec, ems, em]

/-- A rendered "SS.mmm" duration parses through Python `float` to seconds
plus a millisecond fraction. -/
theorem pyFloat_renderSeconds (sec ms : ℕ) (hs : sec < 100) (hms : ms < 1000) :
    pyFloat (renderSeconds sec ms) =
      some (((10 * (sec / 10) + sec % 10 : ℕ) : ℚ) +
        ((100 * (ms / 100) + 10 * (ms / 10 % 10) + ms % 10 : ℕ) : ℚ) / 1000) := by
  have f2 := digitChar_facts (sec / 10) (by omega)
  have f3 := digitChar_facts (sec % 10) (by omega)
  have f4 := digitChar_facts (ms / 100) (by omega)
  have f5 := digitChar_facts (ms / 10 % 10) (by omega)
  have f6 := digitChar_facts (ms % 10) (by omega)
  have d2 := digitVal_digitChar (sec / 10) (by omega)
  have d3 := digitVal_digitChar (sec % 10) (by omega)
  have d4 := digitVal_digitChar (ms / 100) (by omega)
  have d5 := digitVal_digitChar (ms / 10 % 10) (by omega)
  have d6 := digitVal_digitChar (ms % 10) (by omega)
  have hdata : (renderSeconds sec ms).data =
      [digitChar (sec / 10), digitChar (sec % 10), '.', digitChar (ms / 100),
       digitChar (ms / 10 % 10), digitChar (ms % 10)] := rfl
  have hstripd : stripList (renderSeconds sec ms).data = (renderSeconds sec ms).data := by
    apply stripList_eq_self
    · rw [hdata]
      intro c hc
      obtain rfl : digitChar (sec / 10) = c := by simpa using hc
      exact f2.2.1
    · rw [hdata]
      intro c hc
      obtain rfl : digitChar (ms % 10) = c := by simpa using hc
      exact f6.2.1
  have hpstrip : (pyStrip (renderSeconds sec ms)).data = (renderSeconds sec ms).data := hstripd
  rw [pyFloat]
  simp only [hpstrip, hdata]
  rw [if_neg f2.2.2.2.2.2.2.1, if_neg f2.2.2.2.2.2.2.2]
  rw [parseFloatBody]
  simp only [List.takeWhile_cons, List.dropWhile_cons,
    f2.2.2.2.2.1, f2.2.2.2.2.2.1, f3.2.2.2.2.1, f3.2.2.2.2.2.1,
    f4.2.2.2.2.1, f4.2.2.2.2.2.1, f5.2.2.2.2.1, f5.2.2.2.2.2.1,
    f6.2.2.2.2.1, f6.2.2.2.2.2.1, ne_eq, not_false_eq_true, and_self,
    decide_True, if_true, List.takeWhile_nil, List.dropWhile_nil,
    decide_not, List.dropWhile_eq_nil_iff]
  rw [parseMantissa]
  simp only [List.takeWhile_cons, List.dropWhile_cons,
    f2.2.2.2.1, f3.2.2.2.1, ne_eq, not_false_eq_true, decide_True, if_true,
    decide_not]
  simp only [show ('.' : Char) ≠ '.' ↔ False by simp, decide_False, Bool.not_false,
    Bool.not_true, if_false]
  simp [f2.1, f3.1, f4.1, f5.1, f6.1, natFromDigits, d2, d3, d4, d5, d6]
  ring

-- ---------------------------------------------------------------------------
-- Claim theorems
-- ---------------------------------------------------------------------------

/-- C1, counterexample: the claim "is_dnf(s) and is_finish(s) are never both
true for any string s" fails on the concrete label "finished engine", which
contains both the finish keyword "finished" and the DNF keyword "engine". -/
theorem c1_dnf_finish_counterexample :
    is_dnf (PyObj.pyStr "finished engine") = true ∧
    is_finish (PyObj.pyStr "finished engine") = true := by
  constructor <;> decide

/-- C1 (amended): for every label whose lower-cased form contains neither the
word "finished" nor any lapped pattern as a substring, `is_dnf` and
`is_finish` are never both true; for such labels the only way to be a finish
is the leading-"+"-with-"lap" rule, which forces `is_dnf` to false. -/
theorem c1_dnf_finish_disjoint (s : String)
    (h1 : pyContains (pyLower s) "finished" = false)
    (h2 : ∀ pat ∈ LAPPED_PATTERNS, pyContains (pyLower s) pat = false) :
    ¬(is_dnf (PyObj.pyStr s) = true ∧ is_finish (PyObj.pyStr s) = true) := by
  rintro ⟨hd, hf⟩
  have hl : LAPPED_PATTERNS.any (fun pat => pyContains (pyLower s) pat) = false := by
    simp only [List.any_eq_false]
    intro pat hpat
    simp [h2 pat hpat]
  have hfin : FINISH_KEYWORDS.any (fun kw => pyContains (pyLower s) kw) = false := by
    simp [FINISH_KEYWORDS, h1]
  rw [is_finish_eq] at hf
  rw [is_dnf_eq] at hd
  simp only [hfin, hl, Bool.false_or, Bool.or_false] at hf
  simp [hf] at hd

/-- C1 amended-claim witness at a plain mechanical-DNF label. -/
theorem c1_dnf_finish_disjoint_witness :
    ¬(is_dnf (PyObj.pyStr "Engine") = true ∧
      is_finish (PyObj.pyStr "Engine") = true) :=
  c1_dnf_finish_disjoint "Engine" (by decide) (by decide)

/-- C2: `is_dnf(s)` is true iff the lower-cased label is not a
leading-"+"-with-"lap" pattern and some DNF keyword occurs as a bare
substring; in particular every leading-"+"-with-"lap" label is not a DNF. -/
theorem c2_is_dnf_characterisation (s : String) :
    (is_dnf (PyObj.pyStr s) = true ↔
      (¬(pyStartsWith (pyLower s) "+" = true ∧ pyContains (pyLower s) "lap" = true) ∧
       ∃ kw ∈ DNF_KEYWORDS, pyContains (pyLower s) kw = true)) ∧
    (pyStartsWith (pyLower s) "+" = true → pyContains (pyLower s) "lap" = true →
      is_dnf (PyObj.pyStr s) = false) := by
  constructor
  · rw [is_dnf_eq]
    cases hp : pyStartsWith (pyLower s) "+" <;>
      cases hl : pyContains (pyLower s) "lap" <;>
        simp [hp, hl, List.any_eq_true]
  · intro hplus hlap
    rw [is_dnf_eq]
    simp [hplus, hlap]

/-- C2 witness: "+2 Laps" starts with "+" and contains "lap", so it is not a
DNF even though it matches no other rule. -/
theorem c2_is_dnf_characterisation_witness :
    is_dnf (PyObj.pyStr "+2 Laps") = false :=
  (c2_is_dnf_characterisation "+2 Laps").2 (by decide) (by decide)

/-- C4: `is_finish(s)` is true iff the lower-cased label contains the word
"finished", or begins with "+" and contains "lap", or contains one of the
explicit lapped patterns as a substring. -/
theorem c4_is_finish_characterisation (s : String) :
    is_finish (PyObj.pyStr s) = true ↔
      (pyContains (pyLower s) "finished" = true ∨
       (pyStartsWith (pyLower s) "+" = true ∧ pyContains (pyLower s) "lap" = true) ∨
       ∃ pat ∈ LAPPED_PATTERNS, pyContains (pyLower s) pat = true) := by
  rw [is_finish_eq]
  simp [FINISH_KEYWORDS, List.any_eq_true, Bool.and_eq_true]
  tauto

/-- C3: `classify_dnf_type(s)` is `none` exactly when `is_dnf(s)` is false;
for DNF labels it returns one of mechanical / crash / other, with the
mechanical vocabulary checked strictly before the crash vocabulary, and
other when neither vocabulary matches. -/
theorem c3_classify_dnf_type_characterisation (s : String) :
    (classify_dnf_type (PyObj.pyStr s) = none ↔ is_dnf (PyObj.pyStr s) = false) ∧
    (is_dnf (PyObj.pyStr s) = true →
      (classify_dnf_type (PyObj.pyStr s) = some "mechanical" ∨
       classify_dnf_type (PyObj.pyStr s) = some "crash" ∨
       classify_dnf_type (PyObj.pyStr s) = some "other") ∧
      ((∃ kw ∈ MECHANICAL_KEYWORDS, pyContains (pyLower s) kw = true) →
        classify_dnf_type (PyObj.pyStr s) = some "mechanical") ∧
      (¬(∃ kw ∈ MECHANICAL_KEYWORDS, pyContains (pyLower s) kw = true) →
       (∃ kw ∈ CRASH_KEYWORDS, pyContains (pyLower s) kw = true) →
        classify_dnf_type (PyObj.pyStr s) = some "crash") ∧
      (¬(∃ kw ∈ MECHANICAL_KEYWORDS, pyContains (pyLower s) kw = true) →
       ¬(∃ kw ∈ CRASH_KEYWORDS, pyContains (pyLower s) kw = true) →
        classify_dnf_type (PyObj.pyStr s) = some "other")) := by
  constructor
  · cases hd : is_dnf (PyObj.pyStr s)
    · simp [classify_dnf_type, hd]
    · cases hm : MECHANICAL_KEYWORDS.any (fun kw => pyContains (pyLower s) kw) <;>
        cases hc : CRASH_KEYWORDS.any (fun kw => pyContains (pyLower s) kw) <;>
          simp [classify_dnf_type, hd, hm, hc]
  · intro hd
    refine ⟨?_, ?_, ?_, ?_⟩
    · cases hm : MECHANICAL_KEYWORDS.any (fun kw => pyContains (pyLower s) kw) <;>
        cases hc : CRASH_KEYWORDS.any (fun kw => pyContains (pyLower s) kw) <;>
          simp [classify_dnf_type, hd, hm, hc]
    · intro hex
      have hm : MECHANICAL_KEYWORDS.any (fun kw => pyContains (pyLower s) kw) = true :=
        List.any_eq_true.mpr hex
      simp [classify_dnf_type, hd, hm]
    · intro hnm hex
      have hm : MECHANICAL_KEYWORDS.any (fun kw => pyContains (pyLower s) kw) = false := by
        rw [← Bool.not_eq_true, List.any_eq_true]
        exact hnm
      have hc : CRASH_KEYWORDS.any (fun kw => pyContains (pyLower s) kw) = true :=
        List.any_eq_true.mpr hex
      simp [classify_dnf_type, hd, hm, hc]
    · intro hnm hnc
      have hm : MECHANICAL_KEYWORDS.any (fun kw => pyContains (pyLower s) kw) = false := by
        rw [← Bool.not_eq_true, List.any_eq_true]
        exact hnm
      have hc : CRASH_KEYWORDS.any (fun kw => pyContains (pyLower s) kw) = false := by
        rw [← Bool.not_eq_true, List.any_eq_true]
        exact hnc
      simp [classify_dnf_type, hd, hm, hc]

/-- C3 witness: "Collision damage" is a DNF whose label matches no mechanical
keyword but matches the crash vocabulary, so it classifies as crash. -/
theorem c3_classify_dnf_type_witness :
    classify_dnf_type (PyObj.pyStr "Collision damage") = some "crash" :=
  (((c3_classify_dnf_type_characterisation "Collision damage").2
    (by decide)).2.2.1 (by decide) ⟨"collision", by decide, by decide⟩)

/-- C5: the vectorised classifiers produce exactly one output per input cell
and agree index-by-index with the scalar classifiers, with null cells mapping
to `is_dnf = 0` and `dnf_type = none`. -/
theorem c5_series_refines_scalar (xs : List (Option String)) :
    (compute_is_dnf_series xs).length = xs.length ∧
    (compute_dnf_type_series xs).length = xs.length ∧
    ∀ i : ℕ,
      (∀ v : String, xs[i]? = some (some v) →
        (compute_is_dnf_series xs)[i]? =
          some (if is_dnf (PyObj.pyStr v) then 1 else 0) ∧
        (compute_dnf_type_series xs)[i]? =
          some (classify_dnf_type (PyObj.pyStr v))) ∧
      (xs[i]? = some none →
        (compute_is_dnf_series xs)[i]? = some 0 ∧
        (compute_dnf_type_series xs)[i]? = some none) ∧
      (xs[i]? = none →
        (compute_is_dnf_series xs)[i]? = none ∧
        (compute_dnf_type_series xs)[i]? = none) := by
  refine ⟨by simp [compute_is_dnf_series], by simp [compute_dnf_type_series], ?_⟩
  intro i
  refine ⟨?_, ?_, ?_⟩
  · intro v h
    constructor <;>
      simp [compute_is_dnf_series, compute_dnf_type_series, List.getElem?_map, h]
  · intro h
    constructor <;>
      simp [compute_is_dnf_series, compute_dnf_type_series, List.getElem?_map, h]
  · intro h
    constructor <;>
      simp [compute_is_dnf_series, compute_dnf_type_series, List.getElem?_map, h]

/-- C5 witness on a concrete two-cell series with one label and one null. -/
theorem c5_series_refines_scalar_witness :
    (compute_is_dnf_series [some "Engine", none])[0]? = some 1 ∧
    (compute_dnf_type_series [some "Engine", none])[1]? = some none := by
  constructor
  · rw [(((c5_series_refines_scalar [some "Engine", none]).2.2 0).1 "Engine" rfl).1]
    decide
  · exact (((c5_series_refines_scalar [some "Engine", none]).2.2 1).2.1 rfl).2

/-- C6: every non-string (and in particular null) input is classified with the
default `is_dnf = false`, `is_finish = false`, `dnf_type = none`; the
functions are total, so they never raise. -/
theorem c6_non_string_default (v : PyObj) (h : ∀ s : String, v ≠ PyObj.pyStr s) :
    is_dnf v = false ∧ is_finish v = false ∧ classify_dnf_type v = none := by
  cases v with
  | pyStr s => exact absurd rfl (h s)
  | pyNone => exact ⟨rfl, rfl, rfl⟩
  | pyBool b => exact ⟨rfl, rfl, rfl⟩
  | pyInt n => exact ⟨rfl, rfl, rfl⟩

/-- C6 witness at the null input. -/
theorem c6_non_string_default_witness :
    is_dnf PyObj.pyNone = false ∧ is_finish PyObj.pyNone = false ∧
    classify_dnf_type PyObj.pyNone = none :=
  c6_non_string_default PyObj.pyNone (fun _ hs => PyObj.noConfusion hs)

/-- C7: the outlier-nulling operation keeps the row count, sets every
non-null value strictly outside the inclusive bound to null, and leaves null
cells and in-bound values (including the boundary values themselves)
unchanged. -/
theorem c7_null_out_outliers_clamps_to_unknown (col : List (Option ℚ))
    (min_val max_val : ℚ) :
    (null_out_outliers col min_val max_val).length = col.length ∧
    ∀ i : ℕ,
      (∀ v : ℚ, col[i]? = some (some v) → (v < min_val ∨ v > max_val) →
        (null_out_outliers col min_val max_val)[i]? = some none) ∧
      (∀ v : ℚ, col[i]? = some (some v) → min_val ≤ v → v ≤ max_val →
        (null_out_outliers col min_val max_val)[i]? = some (some v)) ∧
      (col[i]? = some none →
        (null_out_outliers col min_val max_val)[i]? = some none) := by
  refine ⟨by simp [null_out_outliers], ?_⟩
  intro i
  refine ⟨?_, ?_, ?_⟩
  · intro v h hout
    simp [null_out_outliers, List.getElem?_map, h, hout]
  · intro v h h1 h2
    have hnot : ¬(v < min_val ∨ v > max_val) := by
      push_neg
      exact ⟨h1, h2⟩
    simp [null_out_outliers, List.getElem?_map, h, hnot]
  · intro h
    simp [null_out_outliers, List.getElem?_map, h]

/-- C7 witness: a lap time of 700000 ms with bounds [30000, 600000] becomes
null while the boundary value 600000 is kept. -/
theorem c7_null_out_outliers_witness :
    (null_out_outliers [some 700000, some 600000] 30000 600000)[0]? = some none ∧
    (null_out_outliers [some 700000, some 600000] 30000 600000)[1]? =
      some (some 600000) := by
  constructor
  · exact ((c7_null_out_outliers_clamps_to_unknown
      [some 700000, some 600000] 30000 600000).2 0).1 700000 rfl
      (by right; norm_num)
  · exact (((c7_null_out_outliers_clamps_to_unknown
      [some 700000, some 600000] 30000 600000).2 1).2.1 600000 rfl
      (by norm_num) (by norm_num))

/-- C8: the duration parser maps null to null; a textual "M:SS.mmm" lap time
to minutes*60000 + seconds*1000 + milliseconds; a bare "SS.mmm" duration to
seconds*1000 + milliseconds; and inputs matched neither by the lap-time
pattern nor by the float grammar to null. -/
theorem c8_duration_parsing :
    lap_time_to_ms none = none ∧
    parse_duration none = none ∧
    (∀ m sec ms : ℕ, m < 100 → sec < 100 → ms < 1000 →
      lap_time_to_ms (some (renderLapTime m sec ms)) =
        some (((m * 60000 + sec * 1000 + ms : ℕ) : ℚ))) ∧
    (∀ sec ms : ℕ, sec < 100 → ms < 1000 →
      parse_duration (some (renderSeconds sec ms)) =
        some (((sec * 1000 + ms : ℕ) : ℚ))) ∧
    (∀ s : String, lap_time_match (pyStrip s).data = none →
      lap_time_to_ms (some s) = none) ∧
    (∀ s : String, (pyStrip s).data.any (fun c => c = ':') = true →
      lap_time_match (pyStrip s).data = none → parse_duration (some s) = none) ∧
    (∀ s : String, (pyStrip s).data.any (fun c => c = ':') = false →
      pyFloat (pyStrip s) = none → parse_duration (some s) = none) := by
  refine ⟨rfl, rfl, lap_time_to_ms_render, ?_, ?_, ?_, ?_⟩
  · intro sec ms hs hms
    have f2 := digitChar_facts (sec / 10) (by omega)
    have f6 := digitChar_facts (ms % 10) (by omega)
    have hdata : (renderSeconds sec ms).data =
        [digitChar (sec / 10), digitChar (sec % 10), '.', digitChar (ms / 100),
         digitChar (ms / 10 % 10), digitChar (ms % 10)] := rfl
    have hstripd : stripList (renderSeconds sec ms).data =
        (renderSeconds sec ms).data := by
      apply stripList_eq_self
      · rw [hdata]
        intro c hc
        obtain rfl : digitChar (sec / 10) = c := by simpa using hc
        exact f2.2.1
      · rw [hdata]
        intro c hc
        obtain rfl : digitChar (ms % 10) = c := by simpa using hc
        exact f6.2.1
    have hv : pyStrip (renderSeconds sec ms) = renderSeconds sec ms := by
      show String.mk _ = _
      rw [hstripd]
    have hcolon : (renderSeconds sec ms).data.any (fun c => c = ':') = false := by
      have f3 := digitChar_facts (sec % 10) (by omega)
      have f4 := digitChar_facts (ms / 100) (by omega)
      have f5 := digitChar_facts (ms / 10 % 10) (by omega)
      rw [hdata]
      simp [f2.2.2.1, f3.2.2.1, f4.2.2.1, f5.2.2.1, f6.2.2.1]
    rw [parse_duration]
    simp only [hv, hcolon, Bool.false_eq_true, if_false,
      pyFloat_renderSeconds sec ms hs hms]
    have e1 : 10 * (sec / 10) + sec % 10 = sec := by omega
    have e2 : 100 * (ms / 100) + 10 * (ms / 10 % 10) + ms % 10 = ms := by omega
    rw [e1, e2]
    congr 1
    rw [add_mul, div_mul_cancel₀ _ (by norm_num : (1000 : ℚ) ≠ 0)]
    push_cast
    ring
  · intro s h
    simp [lap_time_to_ms, h]
  · intro s hcol h
    rw [parse_duration]
    simp only [hcol, if_true]
    have : (pyStrip (pyStrip s)).data = (pyStrip s).data :=
      congrArg String.data (pyStrip_idem s)
    simp [lap_time_to_ms, this, h]
  · intro s hcol h
    rw [parse_duration]
    simp [hcol, h]

/-- C8 witness: "1:23.456" and "23.456" at their concrete values. -/
theorem c8_duration_parsing_witness :
    lap_time_to_ms (some (renderLapTime 1 23 456)) = some 83456 ∧
    parse_duration (some (renderSeconds 23 456)) = some 23456 := by
  constructor
  · rw [c8_duration_parsing.2.2.1 1 23 456 (by norm_num) (by norm_num) (by norm_num)]
    norm_num
  · rw [c8_duration_parsing.2.2.2.1 23 456 (by norm_num) (by norm_num)]
    norm_num

/-- C9: after cleaning, no row of the results table carries a literal grid 0:
raw zero grids become null, nonzero (or already-null) grids are kept, the
row count is unchanged, and each row's pit-lane flag is initialised to 0. -/
theorem c9_grid_sentinel (rows : List RawResultRow) :
    (clean_results rows).length = rows.length ∧
    ∀ i : ℕ, ∀ r : RawResultRow, rows[i]? = some r →
      ∃ c : CleanResultRow, (clean_results rows)[i]? = some c ∧
        c.grid ≠ some 0 ∧
        (r.grid = some 0 → c.grid = none) ∧
        (r.grid ≠ some 0 → c.grid = r.grid) ∧
        c.grid_pit_lane = 0 := by
  refine ⟨by simp [clean_results], ?_⟩
  intro i r h
  refine ⟨clean_results_row r,
    by simp [clean_results, List.getElem?_map, h], ?_, ?_, ?_, rfl⟩
  · by_cases hg : r.grid = some (0 : Int) <;>
      simp [clean_results_row, hg]
  · intro hg
    simp [clean_results_row, hg]
  · intro hg
    simp [clean_results_row, hg]

/-- C9 witness on a two-row table: the grid-0 row is nulled, the grid-5 row
is kept, both with pit-lane flag 0. -/
theorem c9_grid_sentinel_witness :
    ∃ c : CleanResultRow,
      (clean_results [⟨some 0, none, some "R", some 10, none⟩,
                      ⟨some 5, some 1, some "1", some 25, none⟩])[0]? = some c ∧
      c.grid ≠ some 0 ∧ c.grid = none ∧ c.grid_pit_lane = 0 := by
  obtain ⟨c, hc, h1, h2, _h3, h4⟩ :=
    (c9_grid_sentinel [⟨some 0, none, some "R", some 10, none⟩,
      ⟨some 5, some 1, some "1", some 25, none⟩]).2 0
      ⟨some 0, none, some "R", some 10, none⟩ rfl
  exact ⟨c, hc, h1, h2 rfl, h4⟩

/-- C10: after cleaning, every non-null points value is non-negative:
negative raw points are clamped to 0, non-negative raw points are kept, and
null points stay null. -/
theorem c10_points_nonnegative (rows : List RawResultRow) :
    ∀ i : ℕ, ∀ r : RawResultRow, rows[i]? = some r →
      ∃ c : CleanResultRow, (clean_results rows)[i]? = some c ∧
        (∀ p : ℚ, c.points = some p → 0 ≤ p) ∧
        (∀ p : ℚ, r.points = some p → p < 0 → c.points = some 0) ∧
        (∀ p : ℚ, r.points = some p → 0 ≤ p → c.points = some p) ∧
        (r.points = none → c.points = none) := by
  intro i r h
  refine ⟨clean_results_row r,
    by simp [clean_results, List.getElem?_map, h], ?_, ?_, ?_, ?_⟩
  · intro p hp
    rcases hr : r.points with _ | q
    · rw [show (clean_results_row r).points = none by
        simp [clean_results_row, hr]] at hp
      cases hp
    · by_cases hq : q < 0
      · rw [show (clean_results_row r).points = some 0 by
          simp [clean_results_row, hr, hq]] at hp
        obtain rfl : (0 : ℚ) = p := by simpa using hp
        exact le_refl 0
      · rw [show (clean_results_row r).points = some q by
          simp [clean_results_row, hr, hq]] at hp
        obtain rfl : q = p := by simpa using hp
        exact not_lt.mp hq
  · intro p hp hneg
    simp [clean_results_row, hp, hneg]
  · intro p hp hpos
    simp [clean_results_row, hp, not_lt.mpr hpos]
  · intro hp
    simp [clean_results_row, hp]

/-- C10 witness: points -2 clamps to 0 and points 25 is kept. -/
theorem c10_points_nonnegative_witness :
    ∃ c : CleanResultRow,
      (clean_results [⟨some 3, some 1, some "1", some (-2), none⟩])[0]? = some c ∧
      c.points = some 0 := by
  obtain ⟨c, hc, _h1, h2, _⟩ :=
    c10_points_nonnegative [⟨some 3, some 1, some "1", some (-2), none⟩] 0
      ⟨some 3, some 1, some "1", some (-2), none⟩ rfl
  exact ⟨c, hc, h2 (-2) rfl (by norm_num)⟩

end F1

